import Mathlib

/-!
Verification of the webhook performance tester (`test-webhook-performance.py`)
and its result comparator (`compare_results.py`).

The embedding models durations, timestamps and percentages as rationals.
Python's built-in `round(x, ndigits)` is modelled as exact decimal
round-half-to-even on `ℚ` (the idealisation of IEEE-754 rounding the script
relies on).  The network is abstracted as an environment assigning each
request id an `HttpResult` (completed exchange, timeout, or transport
failure) together with the observed wall-clock start and end times; every
computation the scripts perform on those observations is translated
directly from the source.
-/

namespace WebhookPerf

/-! ### Decimal rounding: model of Python `round(x, ndigits)` -/

/-- Round a rational to the nearest integer, ties going to the even
integer (the tie-breaking rule of Python's built-in `round`). -/
def roundHalfEven (x : ℚ) : ℤ :=
  if x - ⌊x⌋ < 1/2 then ⌊x⌋
  else if (1:ℚ)/2 < x - ⌊x⌋ then ⌊x⌋ + 1
  else if ⌊x⌋ % 2 = 0 then ⌊x⌋ else ⌊x⌋ + 1

/-- Model of Python `round(x, ndigits)`: round-half-to-even at `ndigits`
decimal places. -/
def roundTo (ndigits : Nat) (x : ℚ) : ℚ :=
  (roundHalfEven (x * 10 ^ ndigits) : ℚ) / 10 ^ ndigits

theorem roundHalfEven_intCast (m : ℤ) : roundHalfEven (m : ℚ) = m := by
  unfold roundHalfEven
  rw [Int.floor_intCast]
  norm_num

/-- A rational that is already an integer multiple of `10 ^ (-ndigits)` is
left unchanged by `roundTo`. -/
theorem roundTo_eq_self {n : Nat} {x : ℚ} (h : ∃ m : ℤ, x * 10 ^ n = (m : ℚ)) :
    roundTo n x = x := by
  obtain ⟨m, hm⟩ := h
  unfold roundTo
  rw [hm, roundHalfEven_intCast, ← hm, mul_div_cancel_right₀]
  positivity

theorem roundTo_zero (n : Nat) : roundTo n 0 = 0 :=
  roundTo_eq_self ⟨0, by norm_num⟩

theorem roundTo_roundTo (n : Nat) (x : ℚ) : roundTo n (roundTo n x) = roundTo n x :=
  roundTo_eq_self ⟨roundHalfEven (x * 10 ^ n), by
    unfold roundTo
    rw [div_mul_cancel₀]
    positivity⟩

/-! ### Request Executor: `WebhookTester.send_request` -/

/-- Abstract result of the HTTP exchange attempted by one request: the
exchange completed with a status code (the body read may separately fail,
yielding no body), or the 60-second timeout elapsed, or a transport error
occurred. -/
inductive HttpResult where
  | completed (status : Nat) (body : Option String)
  | timedOut
  | failed (msg : String)
deriving DecidableEq

/-- The observations the environment supplies for one request: the fresh
session id, the recorded wall-clock start and end times, and how the HTTP
exchange went. -/
structure RequestEnv where
  session_id : String
  start_time : ℚ
  end_time : ℚ
  http : HttpResult
deriving DecidableEq

/-- The record returned by `send_request` (one per dispatched request). -/
structure RequestOutcome where
  request_id : Nat
  session_id : String
  start_time : ℚ
  end_time : ℚ
  duration_seconds : ℚ
  status_code : Option Nat
  error : Option String
  success : Bool
  response_body_preview : Option String
deriving DecidableEq

/-- The accepted status codes of `send_request`. -/
def acceptedStatusCodes : List Nat := [200, 201, 202, 204]

/-- Model of `WebhookTester.send_request`: classify the exchange, record
`duration = end - start` rounded to 4 decimals, and set
`success = (error is None and status_code in [200, 201, 202, 204])`.
An empty response body is falsy in Python, so it yields no preview. -/
def send_request (request_id : Nat) (env : RequestEnv) : RequestOutcome :=
  let duration := env.end_time - env.start_time
  let status_code : Option Nat :=
    match env.http with
    | .completed s _ => some s
    | .timedOut => none
    | .failed _ => none
  let error : Option String :=
    match env.http with
    | .completed _ _ => none
    | .timedOut => some "Timeout after 60 seconds"
    | .failed msg => some msg
  let response_body : Option String :=
    match env.http with
    | .completed _ b => b
    | .timedOut => none
    | .failed _ => none
  { request_id := request_id
    session_id := env.session_id
    start_time := env.start_time
    end_time := env.end_time
    duration_seconds := roundTo 4 duration
    status_code := status_code
    error := error
    success := error.isNone &&
      (match status_code with
       | some c => acceptedStatusCodes.contains c
       | none => false)
    response_body_preview :=
      match response_body with
      | some b => if b.length ≠ 0 then some (b.take 200) else none
      | none => none }

/-! ### Statistics Aggregator: the `statistics` dict of `run_batch` -/

/-- The `statistics` sub-dictionary computed over a duration list. -/
structure DurationStats where
  min_duration_seconds : ℚ
  max_duration_seconds : ℚ
  avg_duration_seconds : ℚ
  median_duration_seconds : ℚ
deriving DecidableEq

/-- Python `min` over a list (only applied to non-empty lists in the
source; the empty case is unreachable there and defaults to 0). -/
def pyMin : List ℚ → ℚ
  | [] => 0
  | x :: xs => xs.foldl min x

/-- Python `max` over a list (empty case unreachable, defaults to 0). -/
def pyMax : List ℚ → ℚ
  | [] => 0
  | x :: xs => xs.foldl max x

/-- The four duration statistics exactly as computed in `run_batch` and
`_calculate_overall_stats`: each guarded by `if durations else 0`, each
rounded to 4 decimals, the median taken as `sorted(durations)[len // 2]`. -/
def calcStats (durations : List ℚ) : DurationStats :=
  { min_duration_seconds := if durations.isEmpty then 0 else roundTo 4 (pyMin durations)
    max_duration_seconds := if durations.isEmpty then 0 else roundTo 4 (pyMax durations)
    avg_duration_seconds :=
      if durations.isEmpty then 0
      else roundTo 4 (durations.sum / (durations.length : ℚ))
    median_duration_seconds :=
      if durations.isEmpty then 0
      else roundTo 4 ((List.insertionSort (· ≤ ·) durations).getD (durations.length / 2) 0) }

/-! ### Batch Dispatcher: `WebhookTester.run_batch` -/

/-- The dictionary built by `run_batch`. -/
structure BatchResult where
  batch_size : Nat
  batch_start_time : ℚ
  batch_end_time : ℚ
  batch_total_duration_seconds : ℚ
  requests_per_second : ℚ
  successful_requests : Nat
  failed_requests : Nat
  success_rate_percent : ℚ
  individual_requests : List RequestOutcome
  statistics : DurationStats
deriving DecidableEq

/-- Model of `WebhookTester.run_batch`: dispatch requests with ids
`1 .. batch_size` (task `i` gets id `i + 1`), join them all, then compute
the batch statistics from the joined outcome list. -/
def run_batch (batch_size : Nat) (env : Nat → RequestEnv)
    (batch_start_time batch_end_time : ℚ) : BatchResult :=
  let results := (List.range batch_size).map (fun i => send_request (i + 1) (env (i + 1)))
  let batch_total_duration := batch_end_time - batch_start_time
  let durations := results.map (fun r => r.duration_seconds)
  let successful := (results.filter (fun r => r.success)).length
  let failed := batch_size - successful
  { batch_size := batch_size
    batch_start_time := batch_start_time
    batch_end_time := batch_end_time
    batch_total_duration_seconds := roundTo 4 batch_total_duration
    requests_per_second :=
      if 0 < batch_total_duration then roundTo 2 ((batch_size : ℚ) / batch_total_duration)
      else 0
    successful_requests := successful
    failed_requests := failed
    success_rate_percent :=
      if 0 < batch_size then roundTo 2 (((successful : ℚ) / (batch_size : ℚ)) * 100)
      else 0
    individual_requests := results
    statistics := calcStats durations }

/-! ### Run Orchestrator: `WebhookTester._calculate_overall_stats` -/

/-- The `overall_statistics` dictionary. -/
structure OverallStats where
  total_requests : Nat
  total_successful : Nat
  total_failed : Nat
  overall_success_rate_percent : ℚ
  total_test_duration_seconds : ℚ
  overall_requests_per_second : ℚ
  individual_request_statistics : DurationStats
deriving DecidableEq

/-- The accumulator threaded through the `for batch in test_batches` loop
of `_calculate_overall_stats`. -/
structure OverallAcc where
  all_durations : List ℚ
  total_requests : Nat
  total_successful : Nat
  total_failed : Nat
  total_time : ℚ
deriving DecidableEq

/-- One iteration of the accumulation loop in `_calculate_overall_stats`. -/
def overallStep (acc : OverallAcc) (batch : BatchResult) : OverallAcc :=
  { all_durations :=
      acc.all_durations ++ batch.individual_requests.map (fun r => r.duration_seconds)
    total_requests := acc.total_requests + batch.batch_size
    total_successful := acc.total_successful + batch.successful_requests
    total_failed := acc.total_failed + batch.failed_requests
    total_time := acc.total_time + batch.batch_total_duration_seconds }

/-- Model of `WebhookTester._calculate_overall_stats`: fold the loop over
the batch list, then compute the overall statistics from the accumulator. -/
def calculate_overall_stats (test_batches : List BatchResult) : OverallStats :=
  let acc := test_batches.foldl overallStep ⟨[], 0, 0, 0, 0⟩
  { total_requests := acc.total_requests
    total_successful := acc.total_successful
    total_failed := acc.total_failed
    overall_success_rate_percent :=
      if 0 < acc.total_requests then
        roundTo 2 (((acc.total_successful : ℚ) / (acc.total_requests : ℚ)) * 100)
      else 0
    total_test_duration_seconds := roundTo 4 acc.total_time
    overall_requests_per_second :=
      if 0 < acc.total_time then roundTo 2 ((acc.total_requests : ℚ) / acc.total_time)
      else 0
    individual_request_statistics := calcStats acc.all_durations }

/-- The same overall statistics written non-incrementally: flatten every
batch's outcome durations into one list and sum the per-batch totals.
This is the formulation used by the spec to state that aggregation is a
pure function of the batch list. -/
def overallStatsFlat (test_batches : List BatchResult) : OverallStats :=
  let all_durations :=
    (test_batches.map (fun b => b.individual_requests.map (fun r => r.duration_seconds))).flatten
  let total_requests := (test_batches.map (fun b => b.batch_size)).sum
  let total_successful := (test_batches.map (fun b => b.successful_requests)).sum
  let total_failed := (test_batches.map (fun b => b.failed_requests)).sum
  let total_time := (test_batches.map (fun b => b.batch_total_duration_seconds)).sum
  { total_requests := total_requests
    total_successful := total_successful
    total_failed := total_failed
    overall_success_rate_percent :=
      if 0 < total_requests then
        roundTo 2 (((total_successful : ℚ) / (total_requests : ℚ)) * 100)
      else 0
    total_test_duration_seconds := roundTo 4 total_time
    overall_requests_per_second :=
      if 0 < total_time then roundTo 2 ((total_requests : ℚ) / total_time)
      else 0
    individual_request_statistics := calcStats all_durations }

/-! ### Run Orchestrator pacing: the loop of `run_all_tests` -/

/-- One observable step of `run_all_tests`: running a batch of a given
size, or suspending for a pacing pause of the given number of seconds. -/
inductive RunEvent where
  | batch (size : Nat)
  | pause (seconds : ℚ)
deriving DecidableEq

/-- The sequence of batch executions and pacing pauses produced by the
loop of `WebhookTester.run_all_tests`: after each batch the code executes
`await asyncio.sleep(2)` guarded by `if batch_size != batch_sizes[-1]`,
i.e. the pause is skipped whenever the current batch SIZE equals the last
element of `batch_sizes`, not whenever the current batch is the last one. -/
def run_all_tests_schedule (batch_sizes : List Nat) : List RunEvent :=
  batch_sizes.flatMap (fun s =>
    RunEvent.batch s ::
      (if batch_sizes.getLast? ≠ some s then [RunEvent.pause 2] else []))

/-- Modelled from the spec: section 4.3 requires a fixed pacing delay of 2
time units between consecutive batches and none after the final batch,
regardless of the batch sizes involved. -/
def specPacingSchedule : List Nat → List RunEvent
  | [] => []
  | [s] => [RunEvent.batch s]
  | s :: rest => RunEvent.batch s :: RunEvent.pause 2 :: specPacingSchedule rest

/-! ### Result Comparator: `compare_results.py` -/

/-- The `statistics` / `individual_request_statistics` sub-document as the
comparator reads it: every field optional (read with `.get(key, 0)`). -/
structure JsonDurationStats where
  min_duration_seconds : Option ℚ
  max_duration_seconds : Option ℚ
  avg_duration_seconds : Option ℚ
  median_duration_seconds : Option ℚ
deriving DecidableEq

/-- The `overall_statistics` sub-document as the comparator reads it. -/
structure JsonOverallStats where
  total_requests : Option Nat
  overall_success_rate_percent : Option ℚ
  overall_requests_per_second : Option ℚ
  individual_request_statistics : Option JsonDurationStats
deriving DecidableEq

/-- One element of `test_batches` as the comparator reads it. -/
structure JsonBatch where
  batch_size : Option Nat
  batch_total_duration_seconds : Option ℚ
  statistics : Option JsonDurationStats
deriving DecidableEq

/-- A whole RunResult-shaped input document of the comparator. -/
structure JsonRun where
  overall_statistics : Option JsonOverallStats
  test_batches : Option (List JsonBatch)
deriving DecidableEq

/-- The empty duration-statistics sub-document (`{}` in Python). -/
def emptyDurationStats : JsonDurationStats := ⟨none, none, none, none⟩

/-- The empty overall-statistics sub-document (`{}` in Python). -/
def emptyOverallStats : JsonOverallStats := ⟨none, none, none, none⟩

/-- `result.get('overall_statistics', {})`. -/
def getStats (r : JsonRun) : JsonOverallStats :=
  r.overall_statistics.getD emptyOverallStats

/-- `stats.get('individual_request_statistics', {})`. -/
def getIndividualStats (s : JsonOverallStats) : JsonDurationStats :=
  s.individual_request_statistics.getD emptyDurationStats

/-- The overall section of the comparison report: the values printed for
each file, the three signed differences (file 2 minus file 1), and the
favorable flag printed next to each difference. -/
structure OverallComparison where
  total_requests1 : Nat
  total_requests2 : Nat
  success_rate1 : ℚ
  success_rate2 : ℚ
  success_rate_diff : ℚ
  success_rate_favorable : Bool
  rps1 : ℚ
  rps2 : ℚ
  rps_diff : ℚ
  rps_favorable : Bool
  avg_duration1 : ℚ
  avg_duration2 : ℚ
  avg_duration_diff : ℚ
  avg_duration_favorable : Bool
  min_duration1 : ℚ
  min_duration2 : ℚ
  max_duration1 : ℚ
  max_duration2 : ℚ
deriving DecidableEq

/-- One entry of the batch-by-batch section of the report. -/
structure BatchComparison where
  size : Nat
  total_time1 : ℚ
  total_time2 : ℚ
  total_time_diff : ℚ
  total_time_favorable : Bool
  avg_duration1 : ℚ
  avg_duration2 : ℚ
deriving DecidableEq

/-- The full report produced by one `compare_results` invocation. -/
structure ComparisonReport where
  overall : OverallComparison
  batches : List BatchComparison
deriving DecidableEq

/-- The report entry printed for one position-aligned batch pair whose
sizes matched. -/
def mkBatchComparison (b1 b2 : JsonBatch) : BatchComparison :=
  let time1 := b1.batch_total_duration_seconds.getD 0
  let time2 := b2.batch_total_duration_seconds.getD 0
  { size := b1.batch_size.getD 0
    total_time1 := time1
    total_time2 := time2
    total_time_diff := time2 - time1
    total_time_favorable := decide (time2 - time1 ≤ 0)
    avg_duration1 := ((b1.statistics.getD emptyDurationStats).avg_duration_seconds).getD 0
    avg_duration2 := ((b2.statistics.getD emptyDurationStats).avg_duration_seconds).getD 0 }

/-- The batch-by-batch loop of `compare_results`: walk the two batch lists
in lockstep (`zip` stops at the shorter list), skip a pair via `continue`
when the sizes read with `.get('batch_size', 0)` differ, and otherwise
emit a report entry. -/
def compareBatchLists : List JsonBatch → List JsonBatch → List BatchComparison
  | b1 :: t1, b2 :: t2 =>
    if b1.batch_size.getD 0 ≠ b2.batch_size.getD 0 then compareBatchLists t1 t2
    else mkBatchComparison b1 b2 :: compareBatchLists t1 t2
  | _, _ => []

/-- Model of `compare_results`: read the overall statistics of both files
(every missing field treated as 0), form the three overall differences
(file 2 minus file 1) with their favorable flags, and run the
batch-by-batch loop over `test_batches` of both files. -/
def compare_results (result1 result2 : JsonRun) : ComparisonReport :=
  let stats1 := getStats result1
  let stats2 := getStats result2
  let success1 := stats1.overall_success_rate_percent.getD 0
  let success2 := stats2.overall_success_rate_percent.getD 0
  let rps1 := stats1.overall_requests_per_second.getD 0
  let rps2 := stats2.overall_requests_per_second.getD 0
  let irs1 := getIndividualStats stats1
  let irs2 := getIndividualStats stats2
  let avg1 := irs1.avg_duration_seconds.getD 0
  let avg2 := irs2.avg_duration_seconds.getD 0
  { overall :=
      { total_requests1 := stats1.total_requests.getD 0
        total_requests2 := stats2.total_requests.getD 0
        success_rate1 := success1
        success_rate2 := success2
        success_rate_diff := success2 - success1
        success_rate_favorable := decide (0 ≤ success2 - success1)
        rps1 := rps1
        rps2 := rps2
        rps_diff := rps2 - rps1
        rps_favorable := decide (0 ≤ rps2 - rps1)
        avg_duration1 := avg1
        avg_duration2 := avg2
        avg_duration_diff := avg2 - avg1
        avg_duration_favorable := decide (avg2 - avg1 ≤ 0)
        min_duration1 := irs1.min_duration_seconds.getD 0
        min_duration2 := irs2.min_duration_seconds.getD 0
        max_duration1 := irs1.max_duration_seconds.getD 0
        max_duration2 := irs2.max_duration_seconds.getD 0 }
    batches := compareBatchLists (result1.test_batches.getD []) (result2.test_batches.getD []) }

/-- Fill every optional field of a duration-statistics sub-document with
the default 0 the comparator would use. -/
def fillDurationStats (s : JsonDurationStats) : JsonDurationStats :=
  ⟨some (s.min_duration_seconds.getD 0), some (s.max_duration_seconds.getD 0),
   some (s.avg_duration_seconds.getD 0), some (s.median_duration_seconds.getD 0)⟩

/-- Fill every optional field of an overall-statistics sub-document. -/
def fillOverallStats (s : JsonOverallStats) : JsonOverallStats :=
  ⟨some (s.total_requests.getD 0), some (s.overall_success_rate_percent.getD 0),
   some (s.overall_requests_per_second.getD 0),
   some (fillDurationStats (getIndividualStats s))⟩

/-- Fill every optional field of one batch entry. -/
def fillBatch (b : JsonBatch) : JsonBatch :=
  ⟨some (b.batch_size.getD 0), some (b.batch_total_duration_seconds.getD 0),
   some (fillDurationStats (b.statistics.getD emptyDurationStats))⟩

/-- Fill every optional field of a whole input document with the zero
defaults the comparator would substitute for it. -/
def fillRun (r : JsonRun) : JsonRun :=
  ⟨some (fillOverallStats (getStats r)), some ((r.test_batches.getD []).map fillBatch)⟩

/-! ### Helper lemmas -/

/-- Closed form of the accumulation loop of `_calculate_overall_stats`. -/
theorem foldl_overallStep_eq (l : List BatchResult) (acc : OverallAcc) :
    l.foldl overallStep acc =
      ⟨acc.all_durations ++
          (l.map (fun b => b.individual_requests.map (fun r => r.duration_seconds))).flatten,
        acc.total_requests + (l.map (fun b => b.batch_size)).sum,
        acc.total_successful + (l.map (fun b => b.successful_requests)).sum,
        acc.total_failed + (l.map (fun b => b.failed_requests)).sum,
        acc.total_time + (l.map (fun b => b.batch_total_duration_seconds)).sum⟩ := by
  induction l generalizing acc with
  | nil => simp
  | cons b t ih =>
    simp only [List.foldl_cons, ih, List.map_cons, List.flatten_cons, List.sum_cons]
    simp [overallStep, List.append_assoc, Nat.add_assoc, add_assoc]

/-! ### Claim theorems -/

/-- C2: for every outcome produced by the Request Executor, the success
flag is true iff no transport/timeout error was recorded and the status
code is one of 200, 201, 202, 204. -/
theorem send_request_success_iff (request_id : Nat) (env : RequestEnv) :
    (send_request request_id env).success = true ↔
      ((send_request request_id env).error = none ∧
        ∃ c, (send_request request_id env).status_code = some c ∧
          c ∈ acceptedStatusCodes) := by
  cases h : env.http <;>
    simp [send_request, acceptedStatusCodes, h]

/-- C5: a batch of requested size 0 yields requests_per_second 0 and
success_rate_percent 0, with both divisions guarded in the code. -/
theorem run_batch_size_zero (env : Nat → RequestEnv) (t0 t1 : ℚ) :
    (run_batch 0 env t0 t1).requests_per_second = 0 ∧
    (run_batch 0 env t0 t1).success_rate_percent = 0 := by
  constructor
  · show (if 0 < t1 - t0 then roundTo 2 (((0 : Nat) : ℚ) / (t1 - t0)) else 0) = 0
    simp [roundTo_zero]
  · rfl

/-- C9: for a batch of requested size 0 the duration list is empty and
min, max, mean and median are each defined as 0; `calcStats` is total on
the empty list. -/
theorem run_batch_empty_durations (env : Nat → RequestEnv) (t0 t1 : ℚ) :
    (run_batch 0 env t0 t1).statistics = ⟨0, 0, 0, 0⟩ ∧
    calcStats [] = ⟨0, 0, 0, 0⟩ :=
  ⟨rfl, rfl⟩

/-- C6: every batch of requested size N satisfies
successful_count + failed_count = N, has exactly N outcomes, and its
request ids are exactly 1..N in order, hence dense and duplicate-free. -/
theorem run_batch_invariants (N : Nat) (env : Nat → RequestEnv) (t0 t1 : ℚ) :
    (run_batch N env t0 t1).successful_requests +
        (run_batch N env t0 t1).failed_requests = N ∧
    (run_batch N env t0 t1).individual_requests.length = N ∧
    (run_batch N env t0 t1).individual_requests.map (fun r => r.request_id) =
        List.range' 1 N ∧
    ((run_batch N env t0 t1).individual_requests.map (fun r => r.request_id)).Nodup := by
  have h3 : (run_batch N env t0 t1).individual_requests =
      (List.range N).map (fun i => send_request (i + 1) (env (i + 1))) := rfl
  have hle : (run_batch N env t0 t1).successful_requests ≤ N := by
    show (((List.range N).map (fun i => send_request (i + 1) (env (i + 1)))).filter
        (fun r => r.success)).length ≤ N
    calc (((List.range N).map (fun i => send_request (i + 1) (env (i + 1)))).filter
          (fun r => r.success)).length
        ≤ ((List.range N).map (fun i => send_request (i + 1) (env (i + 1)))).length :=
          List.length_filter_le _ _
      _ = N := by simp
  have h2 : (run_batch N env t0 t1).failed_requests =
      N - (run_batch N env t0 t1).successful_requests := rfl
  have hmap : (run_batch N env t0 t1).individual_requests.map (fun r => r.request_id) =
      List.range' 1 N := by
    rw [h3, List.map_map, List.range'_eq_map_range]
    exact List.map_congr_left (fun a _ => by simp [send_request]; omega)
  refine ⟨?_, ?_, hmap, ?_⟩
  · rw [h2]; omega
  · rw [h3]; simp
  · rw [hmap]; exact List.nodup_range' 1 N

/-- C7: evidence for the pacing defect of `run_all_tests`. On the default
sizes [5, 10, 20] the produced schedule matches the spec (a 2-second pause
between consecutive batches, none after the last), but on sizes [5, 5] the
code skips the pause between the two batches, because it compares the
current batch size with the LAST size instead of checking position. -/
theorem run_all_tests_pacing_bug :
    run_all_tests_schedule [5, 10, 20] = specPacingSchedule [5, 10, 20] ∧
    run_all_tests_schedule [5, 5] = [RunEvent.batch 5, RunEvent.batch 5] ∧
    specPacingSchedule [5, 5] =
      [RunEvent.batch 5, RunEvent.pause 2, RunEvent.batch 5] ∧
    run_all_tests_schedule [5, 5] ≠ specPacingSchedule [5, 5] := by
  refine ⟨rfl, rfl, rfl, ?_⟩
  rw [show run_all_tests_schedule [5, 5] = [RunEvent.batch 5, RunEvent.batch 5] from rfl,
    show specPacingSchedule [5, 5] =
      [RunEvent.batch 5, RunEvent.pause 2, RunEvent.batch 5] from rfl]
  simp

/-- C3: the overall run statistics are a pure function of the ordered
batch list, and the incremental (fold) computation of
`_calculate_overall_stats` agrees with the non-incremental one that
flattens all batches first. -/
theorem calculate_overall_stats_eq_flat (test_batches : List BatchResult) :
    calculate_overall_stats test_batches = overallStatsFlat test_batches := by
  unfold calculate_overall_stats overallStatsFlat
  rw [foldl_overallStep_eq]
  simp

/-- The batch-by-batch loop is a filterMap over the zipped batch lists:
equal-size pairs produce a report entry, mismatched pairs are skipped. -/
theorem compareBatchLists_eq_filterMap (l1 l2 : List JsonBatch) :
    compareBatchLists l1 l2 =
      (l1.zip l2).filterMap (fun p =>
        if p.1.batch_size.getD 0 = p.2.batch_size.getD 0 then
          some (mkBatchComparison p.1 p.2)
        else none) := by
  induction l1 generalizing l2 with
  | nil => rfl
  | cons b1 t1 ih =>
    cases l2 with
    | nil => rfl
    | cons b2 t2 =>
      by_cases h : b1.batch_size.getD 0 = b2.batch_size.getD 0 <;>
        simp [compareBatchLists, h, ih]

/-- The batch-by-batch loop only looks at the first
`min l1.length l2.length` positions of either list. -/
theorem compareBatchLists_take (l1 l2 : List JsonBatch) (n : Nat)
    (h : min l1.length l2.length ≤ n) :
    compareBatchLists (l1.take n) (l2.take n) = compareBatchLists l1 l2 := by
  induction l1 generalizing l2 n with
  | nil => cases l2 <;> cases n <;> rfl
  | cons b1 t1 ih =>
    cases l2 with
    | nil => cases n <;> rfl
    | cons b2 t2 =>
      cases n with
      | zero =>
        simp only [List.length_cons] at h
        omega
      | succ m =>
        have hm : min t1.length t2.length ≤ m := by
          simp only [List.length_cons] at h
          omega
        simp only [List.take_succ_cons]
        by_cases hsz : b1.batch_size.getD 0 = b2.batch_size.getD 0 <;>
          simp [compareBatchLists, hsz, ih t2 m hm]

/-- Filling every optional field of the batch entries with the zero
defaults does not change the batch-by-batch report. -/
theorem compareBatchLists_fill (l1 l2 : List JsonBatch) :
    compareBatchLists (l1.map fillBatch) (l2.map fillBatch) =
      compareBatchLists l1 l2 := by
  induction l1 generalizing l2 with
  | nil => rfl
  | cons b1 t1 ih =>
    cases l2 with
    | nil => rfl
    | cons b2 t2 =>
      show (if b1.batch_size.getD 0 ≠ b2.batch_size.getD 0
            then compareBatchLists (t1.map fillBatch) (t2.map fillBatch)
            else mkBatchComparison b1 b2 ::
              compareBatchLists (t1.map fillBatch) (t2.map fillBatch)) =
          (if b1.batch_size.getD 0 ≠ b2.batch_size.getD 0
            then compareBatchLists t1 t2
            else mkBatchComparison b1 b2 :: compareBatchLists t1 t2)
      by_cases h : b1.batch_size.getD 0 = b2.batch_size.getD 0
      · rw [if_neg (not_not_intro h), if_neg (not_not_intro h), ih]
      · rw [if_pos h, if_pos h, ih]

/-- C4: the comparator reports the signed difference, file 2 minus
file 1, of the overall success rate, overall throughput and overall mean
duration, and for each position-aligned batch pair with equal sizes the
signed difference of the batch total duration (with both mean durations);
a position-aligned pair with mismatched sizes, such as size 10 against
size 20, is skipped, not compared. -/
theorem compare_results_spec (r1 r2 : JsonRun) :
    (compare_results r1 r2).overall.success_rate_diff =
      (getStats r2).overall_success_rate_percent.getD 0 -
        (getStats r1).overall_success_rate_percent.getD 0 ∧
    (compare_results r1 r2).overall.rps_diff =
      (getStats r2).overall_requests_per_second.getD 0 -
        (getStats r1).overall_requests_per_second.getD 0 ∧
    (compare_results r1 r2).overall.avg_duration_diff =
      (getIndividualStats (getStats r2)).avg_duration_seconds.getD 0 -
        (getIndividualStats (getStats r1)).avg_duration_seconds.getD 0 ∧
    (compare_results r1 r2).batches =
      ((r1.test_batches.getD []).zip (r2.test_batches.getD [])).filterMap (fun p =>
        if p.1.batch_size.getD 0 = p.2.batch_size.getD 0 then
          some (mkBatchComparison p.1 p.2)
        else none) ∧
    (compare_results ⟨none, some [⟨some 10, some 1, none⟩]⟩
        ⟨none, some [⟨some 20, some 1, none⟩]⟩).batches = [] :=
  ⟨rfl, rfl, rfl, compareBatchLists_eq_filterMap _ _, rfl⟩

/-- C10: with unequal numbers of batches, only position-aligned pairs up
to the length of the shorter list are compared; the report is unchanged
when both batch lists are truncated to the shorter length, so every
trailing batch of the longer file is ignored. -/
theorem compare_results_truncates (r1 r2 : JsonRun) :
    (compare_results r1 r2).batches.length ≤
      min (r1.test_batches.getD []).length (r2.test_batches.getD []).length ∧
    (compare_results r1 r2).batches =
      (compare_results
        ⟨r1.overall_statistics,
          some ((r1.test_batches.getD []).take
            (min (r1.test_batches.getD []).length (r2.test_batches.getD []).length))⟩
        ⟨r2.overall_statistics,
          some ((r2.test_batches.getD []).take
            (min (r1.test_batches.getD []).length (r2.test_batches.getD []).length))⟩).batches := by
  constructor
  · rw [show (compare_results r1 r2).batches =
        compareBatchLists (r1.test_batches.getD []) (r2.test_batches.getD []) from rfl,
      compareBatchLists_eq_filterMap]
    refine le_trans (List.length_filterMap_le _ _) ?_
    rw [List.length_zip]
  · exact (compareBatchLists_take (r1.test_batches.getD []) (r2.test_batches.getD [])
      (min (r1.test_batches.getD []).length (r2.test_batches.getD []).length)
      (le_refl _)).symm

/-- C8: the comparator treats every missing optional field as zero and
its report is total: filling all optional fields of both input documents
with the zero defaults leaves the report unchanged. -/
theorem compare_results_fill_defaults (r1 r2 : JsonRun) :
    compare_results (fillRun r1) (fillRun r2) = compare_results r1 r2 := by
  have hb : (compare_results (fillRun r1) (fillRun r2)).batches =
      (compare_results r1 r2).batches := by
    show compareBatchLists ((r1.test_batches.getD []).map fillBatch)
        ((r2.test_batches.getD []).map fillBatch) =
      compareBatchLists (r1.test_batches.getD []) (r2.test_batches.getD [])
    exact compareBatchLists_fill _ _
  have ho : (compare_results (fillRun r1) (fillRun r2)).overall =
      (compare_results r1 r2).overall := rfl
  calc compare_results (fillRun r1) (fillRun r2)
      = ⟨(compare_results (fillRun r1) (fillRun r2)).overall,
          (compare_results (fillRun r1) (fillRun r2)).batches⟩ := rfl
    _ = ⟨(compare_results r1 r2).overall, (compare_results r1 r2).batches⟩ := by
        rw [hb, ho]
    _ = compare_results r1 r2 := rfl

/-- C1 (counterexample): the recorded mean is the rounded quotient, not
the exact quotient: on durations [0.0001, 0.0002, 0.0002] the stored mean
is 0.0002 while sum divided by count is 1/6000; and the stored median is
the rounded upper-middle element: on [0.00015, 0.00025] it is 0.0002, not
the element 0.00025 itself. -/
theorem calcStats_claim_counterexample :
    (calcStats [1/10000, 2/10000, 2/10000]).avg_duration_seconds ≠
      ((1 : ℚ)/10000 + 2/10000 + 2/10000) / (3 : ℚ) ∧
    (calcStats [15/100000, 25/100000]).median_duration_seconds ≠ 25/100000 := by
  constructor <;>
    norm_num [calcStats, roundTo, roundHalfEven, List.sum_cons, List.sum_nil,
      List.insertionSort, List.orderedInsert]

/-- C1 (amended): for every non-empty duration list, the stored median is
the 4-decimal rounding of the element at index length / 2 of the
ascending-sorted list, hence exactly that element whenever all durations
are multiples of 1/10000 (as every recorded duration is, rounding being
idempotent), and the stored mean is the 4-decimal rounding of the sum
divided by the count; for [1, 2, 3, 4] the mean is 5/2 and the median is
3, the upper-middle element. -/
theorem calcStats_median_mean (ds : List ℚ) (hne : ds ≠ []) (s : List ℚ)
    (hperm : s.Perm ds) (hsort : s.Sorted (· ≤ ·)) :
    (calcStats ds).median_duration_seconds = roundTo 4 (s.getD (ds.length / 2) 0) ∧
    ((∀ x ∈ ds, roundTo 4 x = x) →
      (calcStats ds).median_duration_seconds = s.getD (ds.length / 2) 0) ∧
    (calcStats ds).avg_duration_seconds = roundTo 4 (ds.sum / (ds.length : ℚ)) ∧
    (∀ request_id env, roundTo 4 ((send_request request_id env).duration_seconds) =
        (send_request request_id env).duration_seconds) ∧
    (calcStats [1, 2, 3, 4]).avg_duration_seconds = 5/2 ∧
    (calcStats [1, 2, 3, 4]).median_duration_seconds = 3 := by
  have hs : s = List.insertionSort (· ≤ ·) ds :=
    List.eq_of_perm_of_sorted (hperm.trans (List.perm_insertionSort _ ds).symm)
      hsort (List.sorted_insertionSort _ ds)
  have hempty : ds.isEmpty = false := by
    cases ds with
    | nil => exact absurd rfl hne
    | cons a t => rfl
  have hmedian : (calcStats ds).median_duration_seconds =
      roundTo 4 (s.getD (ds.length / 2) 0) := by
    rw [hs]
    simp [calcStats, hempty]
  refine ⟨hmedian, ?_, ?_, ?_, ?_, ?_⟩
  · intro hq
    rw [hmedian]
    have hlen : ds.length / 2 < s.length := by
      rw [hs, List.length_insertionSort]
      have hpos : 0 < ds.length := List.length_pos.mpr hne
      omega
    have hmem : s.getD (ds.length / 2) 0 ∈ ds := by
      rw [List.getD_eq_getElem s 0 hlen]
      exact hperm.mem_iff.mp (List.getElem_mem hlen)
    exact hq _ hmem
  · simp [calcStats, hempty]
  · intro request_id env
    exact roundTo_roundTo 4 _
  · norm_num [calcStats, roundTo, roundHalfEven, List.sum_cons, List.sum_nil]
  · norm_num [calcStats, roundTo, roundHalfEven, List.insertionSort, List.orderedInsert]

/-- Witness for the amended C1 theorem: at durations [2, 1] with sorted
permutation [1, 2], the stored median is the upper-middle element 2. -/
theorem calcStats_median_mean_witness :
    (calcStats [2, 1]).median_duration_seconds = ([1, 2] : List ℚ).getD 1 0 := by
  have hq : ∀ x ∈ ([2, 1] : List ℚ), roundTo 4 x = x := by
    intro x hx
    rcases List.mem_cons.mp hx with h1 | hx1
    · rw [h1]; exact roundTo_eq_self ⟨20000, by norm_num⟩
    · rcases List.mem_cons.mp hx1 with h2 | h3
      · rw [h2]; exact roundTo_eq_self ⟨10000, by norm_num⟩
      · exact absurd h3 (List.not_mem_nil x)
  exact (calcStats_median_mean [2, 1] (by simp) [1, 2]
    (List.Perm.swap 2 1 []) (by norm_num [List.sorted_cons])).2.1 hq

end WebhookPerf
